import Mathlib

/-!
Verification of the line-gas-bot repository against its natural-language
specification.

The development shallowly embeds the TypeScript sources:
* text payloads are modelled as `List Char` (JS strings are sequences of
  UTF-16 code units; for all inputs appearing in the claims the code-unit
  view and the code-point view coincide);
* `Date` values are modelled as `Nat` timestamps;
* the Google-Sheets medium is modelled as in-memory lists of rows, and a
  failure of the medium (a thrown exception in `SpreadsheetApp` calls) is
  modelled by boolean failure flags consulted by the `SpreadsheetService`
  operations, which return `Except`;
* the JSON encode/decode round trips in `User.save` / `User.findByUserId`
  (`JSON.stringify` / `JSON.parse` of the attribute map) and in
  `Message.save` are modelled as the identity: rows store the structured
  values directly;
* `MessageConstants` and `StatusConstants` are imported by the sources but
  their file `src/constants/*.ts` is not among the provided sources; their
  values are modelled from the spec as opaque distinct strings.
-/

/-! ### JS string primitives -/

/-- Whitespace as recognised by `parseInt` and `String.prototype.trim`.
The ASCII whitespace characters; the Unicode space characters (NBSP etc.)
are omitted, none of the claims involves them. -/
def jsWhitespace (c : Char) : Bool :=
  c = ' ' || c = '\t' || c = '\n' || c = '\r' || c = '\x0b' || c = '\x0c'

/-- JS `String.prototype.trim`: strip leading and trailing whitespace. -/
def jsTrim (s : List Char) : List Char :=
  ((s.dropWhile jsWhitespace).reverse.dropWhile jsWhitespace).reverse

/-- Value of a digit character in the given base, `none` if it is not a
digit of that base. -/
def digitVal (base : Nat) (c : Char) : Option Nat :=
  let v : Option Nat :=
    if '0' ≤ c ∧ c ≤ '9' then some (c.toNat - '0'.toNat)
    else if 'a' ≤ c ∧ c ≤ 'f' then some (c.toNat - 'a'.toNat + 10)
    else if 'A' ≤ c ∧ c ≤ 'F' then some (c.toNat - 'A'.toNat + 10)
    else none
  match v with
  | some n => if n < base then some n else none
  | none => none

/-- Horner evaluation of a digit list. -/
def digitsToNat (base : Nat) (ds : List Nat) : Nat :=
  ds.foldl (fun acc d => acc * base + d) 0

/-- ECMAScript `parseInt(string)` with no radix argument: skip leading
whitespace, optional sign, an optional `0x`/`0X` prefix selecting base 16,
then the longest prefix of digits of the base; `none` models `NaN`.
The result is kept as an exact integer: for the range test `[1,120]` the
double rounding of huge values is irrelevant (every representable value of
a ≥ 3-digit parse stays outside the range). -/
def jsParseInt (s : List Char) : Option Int :=
  let s1 := s.dropWhile jsWhitespace
  let signAndRest : Int × List Char :=
    match s1 with
    | '-' :: r => (-1, r)
    | '+' :: r => (1, r)
    | r => (1, r)
  let baseAndRest : Nat × List Char :=
    match signAndRest.2 with
    | '0' :: 'x' :: r => (16, r)
    | '0' :: 'X' :: r => (16, r)
    | r => (10, r)
  let base := baseAndRest.1
  let ds := (baseAndRest.2.takeWhile (fun c => (digitVal base c).isSome)).map
    (fun c => (digitVal base c).getD 0)
  if ds = [] then none
  else some (signAndRest.1 * (digitsToNat base ds : Int))

/-! ### MessageFormatter (src/utils/messageFormatter.ts)

`MessageFormatter.format` runs, for each key of the parameter map in
order, the loop

    while (result.includes(placeholder)) result = result.replace(placeholder, value);

`String.prototype.replace` with a string pattern replaces the first
occurrence.  The loop is not structurally terminating (a value that
re-introduces its own placeholder makes it run forever), so it is embedded
fuel-indexed: `whileReplace pat val n s` returns `some out` when the loop
exits within `n` iterations and `none` otherwise.  `whileReplace_mono`
below shows the `some` answer is independent of the fuel, so `some out`
faithfully means "the JS loop terminates with `out`".

The `$`-escape handling of JS `replace` in the replacement string is not
modelled; no claim involves `$` characters. -/

/-- Index of the first occurrence of `pat` in `s` (JS `indexOf`), `none`
if there is none.  An empty pattern occurs at index 0, as in JS. -/
def firstOccur (pat : List Char) : List Char → Option Nat
  | [] => if pat.isPrefixOf ([] : List Char) then some 0 else none
  | c :: rest =>
    if pat.isPrefixOf (c :: rest) then some 0
    else (firstOccur pat rest).map (· + 1)

/-- JS `String.prototype.includes`. -/
def containsSub (s pat : List Char) : Bool :=
  (firstOccur pat s).isSome

/-- JS `String.prototype.replace` with a string pattern: replace the first
occurrence of `pat` by `val`, return `s` unchanged if there is none. -/
def replaceFirst (s pat val : List Char) : List Char :=
  match firstOccur pat s with
  | none => s
  | some i => s.take i ++ val ++ s.drop (i + pat.length)

/-- Fuel-indexed embedding of the `while (result.includes(placeholder))`
loop of `MessageFormatter.format`. -/
def whileReplace (pat val : List Char) : Nat → List Char → Option (List Char)
  | 0, s => if containsSub s pat then none else some s
  | n + 1, s =>
    if containsSub s pat then whileReplace pat val n (replaceFirst s pat val)
    else some s

/-- The placeholder built for a key: `` `{${key}}` ``. -/
def placeholderOf (key : List Char) : List Char :=
  '{' :: key ++ ['}']

/-- `MessageFormatter.format` on `List Char` texts: fold the per-key
replacement loop over the parameter map (`Object.keys` enumerates string
keys in insertion order, modelled as an association list). -/
def formatL (fuel : Nat) (template : List Char)
    (params : List (List Char × List Char)) : Option (List Char) :=
  params.foldlM (fun s kv => whileReplace (placeholderOf kv.1) kv.2 fuel s) template

theorem whileReplace_mono {pat val : List Char} {n : Nat} {s out : List Char}
    (h : whileReplace pat val n s = some out) :
    whileReplace pat val (n + 1) s = some out := by
  induction n generalizing s with
  | zero =>
    unfold whileReplace at h ⊢
    by_cases hc : containsSub s pat = true <;> simp [hc] at h ⊢
    exact h
  | succ n ih =>
    unfold whileReplace at h ⊢
    by_cases hc : containsSub s pat = true <;> simp [hc] at h ⊢
    · exact ih h
    · exact h

theorem whileReplace_le {pat val : List Char} {m n : Nat} (h : m ≤ n)
    {s out : List Char} (hm : whileReplace pat val m s = some out) :
    whileReplace pat val n s = some out := by
  induction h with
  | refl => exact hm
  | step _ ih => exact whileReplace_mono ih

/-- The terminating runs of the replacement loop are deterministic: the
`some` result does not depend on the fuel bound. -/
theorem whileReplace_det {pat val : List Char} {m n : Nat} {s a b : List Char}
    (ha : whileReplace pat val m s = some a)
    (hb : whileReplace pat val n s = some b) : a = b := by
  rcases Nat.le_total m n with h | h
  · exact Option.some.inj ((whileReplace_le h ha).symm.trans hb)
  · exact (Option.some.inj ((whileReplace_le h hb).symm.trans ha)).symm

/-! ### Constants

`src/constants/statusConstants.ts` and `src/constants/messageConstants.ts`
are imported by the sources but are not among the provided files.
Modelled from the spec: the four conversation states of section 4.2 and the
reply templates of sections 4.2 and 8 (placeholder substitution uses
`{name}` / `{age}`), plus the fixed continuation marker of section 4.4.
Only distinctness and the placeholders they contain matter to the claims;
the literal wording is arbitrary. -/

/-- Modelled from the spec: conversation state enum (section 4.2). -/
def StatusConstants.INITIAL : String := "INITIAL"

/-- Modelled from the spec: conversation state enum (section 4.2). -/
def StatusConstants.WAITING_NAME : String := "WAITING_NAME"

/-- Modelled from the spec: conversation state enum (section 4.2). -/
def StatusConstants.WAITING_AGE : String := "WAITING_AGE"

/-- Modelled from the spec: conversation state enum (section 4.2). -/
def StatusConstants.REGISTERED : String := "REGISTERED"

/-- Modelled from the spec: welcome reply of the INITIAL state. -/
def MessageConstants.WELCOME : String := "WELCOME"

/-- Modelled from the spec: help reply. -/
def MessageConstants.HELP : String := "HELP"

/-- Modelled from the spec: registration-start reply. -/
def MessageConstants.REGISTRATION_START : String := "REGISTRATION_START"

/-- Modelled from the spec: name validation error reply. -/
def MessageConstants.INVALID_NAME : String := "INVALID_NAME"

/-- Modelled from the spec: name-confirmed reply template (section 8:
the reply to a valid name contains the name). -/
def MessageConstants.NAME_CONFIRMED : String := "NAME_CONFIRMED {name}"

/-- Modelled from the spec: age validation error reply. -/
def MessageConstants.INVALID_AGE : String := "INVALID_AGE"

/-- Modelled from the spec: registration-completed reply template
(section 8: contains the name and the age). -/
def MessageConstants.REGISTRATION_COMPLETED : String :=
  "REGISTRATION_COMPLETED {name} {age}"

/-- Modelled from the spec: templated default response of the REGISTERED
state, using the stored name. -/
def MessageConstants.DEFAULT_RESPONSE : String := "DEFAULT_RESPONSE {name}"

/-- Modelled from the spec: generic error reply. -/
def MessageConstants.ERROR : String := "ERROR"

/-- Modelled from the spec: the fixed "continued" marker prefixed to the
second and later chunks of a long message (section 4.4). -/
def MessageConstants.ANALYSIS_CONTINUED : String := "(continued) "

/-! ### Data model (src/models/user.ts, src/models/message.ts)

The in-memory `User` object and the `UserRow` sheet row carry the same six
fields (the row stores the attribute map JSON-encoded; the round trip is
modelled as the identity).  The open attribute map `UserData` is modelled
with the two fields the registration flow reads and writes. -/

/-- The attribute map collected during the flow (`UserData`).  The source
type also admits arbitrary further keys; only `name` and `age` are ever
read or written by the provided sources. -/
structure UserData where
  name : Option (List Char)
  age : Option Int
deriving DecidableEq

/-- A partial update passed to `User.updateData`; `none` means the key is
absent from the update object, and the spread `{...this.data, ...newData}`
keeps the old value. -/
structure UserDataPatch where
  name : Option (List Char)
  age : Option Int
deriving DecidableEq

/-- `{...this.data, ...newData}`: fields present in the patch overwrite,
absent fields are kept. -/
def UserData.merge (d : UserData) (p : UserDataPatch) : UserData :=
  { name := match p.name with | some n => some n | none => d.name,
    age := match p.age with | some a => some a | none => d.age }

/-- The `User` model class / `Users` sheet row: userId, displayName,
state, data, createdAt, updatedAt. -/
structure User where
  userId : String
  displayName : Option String
  state : String
  data : UserData
  createdAt : Nat
  updatedAt : Option Nat
deriving DecidableEq

/-- The `Messages` sheet row: userId, type, content, timestamp.  The
content column stores `JSON.stringify` of the kind-specific payload; for
the text messages the claims are about it is the message text, modelled
directly. -/
structure MessageRow where
  userId : String
  type : String
  content : List Char
  timestamp : Nat
deriving DecidableEq

/-- A `Logs` sheet row: timestamp, level, message. -/
structure LogRow where
  timestamp : Nat
  level : String
  message : List Char
deriving DecidableEq

/-- The persisted state: the three sheets of the spreadsheet (header rows
are left implicit; a row index in the source is 1-based counting the
header, here rows are just list entries). -/
structure Store where
  users : List User
  messages : List MessageRow
  logs : List LogRow
deriving DecidableEq

/-- Failure model for the spreadsheet medium: a flag per operation class
tells whether the underlying `SpreadsheetApp` call throws. -/
structure FailEnv where
  failMessageWrite : Bool
  failUserWrite : Bool
  failUserRead : Bool
deriving DecidableEq

/-- The environment in which no spreadsheet operation fails. -/
def okEnv : FailEnv := ⟨false, false, false⟩

/-! ### SpreadsheetService (src/services/spreadsheetService.ts) -/

/-- `SpreadsheetService.findUserRow` composed with the 6-column
`getRange`/`getValues` read of `getUserDataByUserId`: the first row whose
first column equals the user id (`findUserRow` scans `values` from index 1
past the header and returns the first hit). -/
def usersLookup (uid : String) : List User → Option User
  | [] => none
  | r :: rest => if r.userId = uid then some r else usersLookup uid rest

/-- The row surgery of `SpreadsheetService.saveUserData`: overwrite the
first row matched by `findUserRow` with `setValues`, or `appendRow` when
the scan finds nothing.  The `userData.length <= 5` branches that push a
fresh `new Date()` are unreachable: the `UserRow` type is a 6-tuple, so
every well-typed caller passes all six fields and the row is written
verbatim. -/
def upsertUsers (row : User) : List User → List User
  | [] => [row]
  | r :: rest => if r.userId = row.userId then row :: rest else r :: upsertUsers row rest

/-- `SpreadsheetService.saveUserData`: rethrows a failure of the medium,
otherwise overwrites the matched row in place or appends a new one. -/
def SpreadsheetService.saveUserData (fail : Bool) (store : Store) (row : User) :
    Except String Store :=
  if fail then .error "spreadsheet write failed"
  else .ok { store with users := upsertUsers row store.users }

/-- `SpreadsheetService.getUserDataByUserId`: rethrows a failure of the
medium, otherwise returns the matched row or `null`. -/
def SpreadsheetService.getUserDataByUserId (fail : Bool) (store : Store) (uid : String) :
    Except String (Option User) :=
  if fail then .error "spreadsheet read failed"
  else .ok (usersLookup uid store.users)

/-- `SpreadsheetService.saveMessageData`: rethrows a failure of the
medium, otherwise `appendRow`. -/
def SpreadsheetService.saveMessageData (fail : Bool) (store : Store) (row : MessageRow) :
    Except String Store :=
  if fail then .error "spreadsheet write failed"
  else .ok { store with messages := store.messages ++ [row] }

/-- `SpreadsheetService.saveLog`: appends to the Logs sheet; its failures
are swallowed in the source ("log errors are not fatal"), so it is
modelled as total. -/
def SpreadsheetService.saveLog (now : Nat) (store : Store) (level : String)
    (message : List Char) : Store :=
  { store with logs := store.logs ++ [⟨now, level, message⟩] }

/-! ### Logger (src/utils/logger.ts)

`Logger.log` / `Logger.error` print to the console and append a row to the
Logs sheet via `SpreadsheetService.saveLog`.  The logger is modelled in
its initialized state (the webhook entry point initializes it before the
handlers run); `saveToSheet` swallows its own failures, so logging is
total. -/

/-- `Logger.log`. -/
def Logger.log (now : Nat) (store : Store) (message : List Char) : Store :=
  SpreadsheetService.saveLog now store "INFO" message

/-- `Logger.error`. -/
def Logger.error (now : Nat) (store : Store) (message : List Char) : Store :=
  SpreadsheetService.saveLog now store "ERROR" message

/-! ### User and Message model classes -/

/-- `new User(userId)`: INITIAL state, empty attribute map, `createdAt`
stamped, `updatedAt` left `null`. -/
def User.new (now : Nat) (uid : String) : User :=
  ⟨uid, none, StatusConstants.INITIAL, ⟨none, none⟩, now, none⟩

/-- `User.save`: builds the 6-field row and calls
`SpreadsheetService.saveUserData`; a thrown persistence error is caught,
logged through `Logger.error`, and turned into the return value `false`. -/
def User.save (env : FailEnv) (now : Nat) (store : Store) (u : User) : Store × Bool :=
  match SpreadsheetService.saveUserData env.failUserWrite store u with
  | .ok s => (s, true)
  | .error msg => (Logger.error now store ("User save error: ".data ++ msg.data), false)

/-- `User.findByUserId`: reads the row through
`SpreadsheetService.getUserDataByUserId` and rebuilds the `User` object
(the JSON decode of the data column is the identity here); a thrown read
error is caught, logged, and turned into `null`. -/
def User.findByUserId (env : FailEnv) (now : Nat) (store : Store) (uid : String) :
    Store × Option User :=
  match SpreadsheetService.getUserDataByUserId env.failUserRead store uid with
  | .ok r => (store, r)
  | .error msg => (Logger.error now store ("Find user error: ".data ++ msg.data), none)

/-- `User.updateState`: set the state, stamp `updatedAt`, save.  Returns
the updated object, the store after the save attempt, and `save`'s
boolean. -/
def User.updateState (env : FailEnv) (now : Nat) (store : Store) (u : User)
    (newState : String) : User × Store × Bool :=
  let u' := { u with state := newState, updatedAt := some now }
  let r := User.save env now store u'
  (u', r.1, r.2)

/-- `User.updateData`: merge the patch into the attribute map (spread
syntax: provided keys overwrite), stamp `updatedAt`, save. -/
def User.updateData (env : FailEnv) (now : Nat) (store : Store) (u : User)
    (patch : UserDataPatch) : User × Store × Bool :=
  let u' := { u with data := u.data.merge patch, updatedAt := some now }
  let r := User.save env now store u'
  (u', r.1, r.2)

/-- `new Message(userId, type, content).save()`: append the row via
`SpreadsheetService.saveMessageData`; a thrown persistence error is
caught, logged, and turned into the return value `false`. -/
def Message.save (env : FailEnv) (now : Nat) (store : Store) (uid : String)
    (type : String) (content : List Char) : Store × Bool :=
  match SpreadsheetService.saveMessageData env.failMessageWrite store ⟨uid, type, content, now⟩ with
  | .ok s => (s, true)
  | .error msg => (Logger.error now store ("Message save error: ".data ++ msg.data), false)

/-! ### Inbound events (src/models/lineEvent.ts) -/

/-- `LineEvent.type`. -/
inductive EventType
  | message | follow | unfollow | join | leave | memberJoined | memberLeft
  | postback | beacon | accountLink | things
deriving DecidableEq

/-- `LineMessage.type`. -/
inductive MessageType
  | text | image | video | audio | file | location | sticker
deriving DecidableEq

/-- `LineMessage` (the content-provider descriptor is not read by any of
the embedded code paths). -/
structure LineMessage where
  id : String
  type : MessageType
  text : Option (List Char)
deriving DecidableEq

/-- `LineSource.type`. -/
inductive SourceType
  | user | group | room
deriving DecidableEq

/-- `LineSource`. -/
structure LineSource where
  type : SourceType
  userId : Option String
deriving DecidableEq

/-- `LineEvent` (the fields the embedded handlers read; `postback` keeps
only the raw data string). -/
structure LineEvent where
  type : EventType
  replyToken : Option String
  source : LineSource
  timestamp : Nat
  message : Option LineMessage
  postback : Option String
deriving DecidableEq

/-! ### HandlerFactory (src/factories/handlerFactory.ts) -/

/-- The four handler classes the factory can instantiate. -/
inductive Handler
  | textHandler | imageHandler | postbackHandler | defaultHandler
deriving DecidableEq

/-- `HandlerFactory.createHandler`: nested conditionals of the source —
message events dispatch on `event.message?.type` (an absent message falls
to the default case), then postback, then the default handler. -/
def HandlerFactory.createHandler (ev : LineEvent) : Handler :=
  if ev.type = .message then
    match ev.message with
    | some m =>
      match m.type with
      | .text => .textHandler
      | .image => .imageHandler
      | _ => .defaultHandler
    | none => .defaultHandler
  else if ev.type = .postback then .postbackHandler
  else .defaultHandler

/-! ### Outbound sends -/

/-- One outbound message attempt: a reply (consuming a reply token) or a
push. -/
inductive Send
  | reply (token : String) (text : List Char)
  | push (dest : String) (text : List Char)
deriving DecidableEq

/-! ### TextHandler (src/handlers/textHandler.ts)

The handler is embedded as a function from the store to the store plus
the list of reply attempts.  `fuel` bounds the `MessageFormatter` loops;
all state writes happen before any formatting, so the store component is
fuel-independent, and a `none` from the formatter (the JS loop not
terminating within the bound) yields an invocation that never reaches the
final `replyText`.  `now` is the clock value used for every
`new Date()` of the invocation. -/

/-- Keyword checked by `handleInitialState` for starting registration. -/
def registerKeyword : List Char := "登録".data

/-- Keyword checked by `handleInitialState` and `handleRegisteredState`
for the help reply. -/
def helpKeyword : List Char := "ヘルプ".data

/-- `TextHandler.handleInitialState`. -/
def TextHandler.handleInitialState (env : FailEnv) (now : Nat) (store : Store)
    (user : User) (text : List Char) : User × Store × Option (List Char) :=
  if text = registerKeyword then
    let r := User.updateState env now store user StatusConstants.WAITING_NAME
    (r.1, r.2.1, some MessageConstants.REGISTRATION_START.data)
  else if text = helpKeyword then
    (user, store, some MessageConstants.HELP.data)
  else
    (user, store, some MessageConstants.WELCOME.data)

/-- `TextHandler.handleWaitingNameState`. -/
def TextHandler.handleWaitingNameState (fuel : Nat) (env : FailEnv) (now : Nat)
    (store : Store) (user : User) (text : List Char) :
    User × Store × Option (List Char) :=
  if (jsTrim text).length < 2 then
    (user, store, some MessageConstants.INVALID_NAME.data)
  else
    let r1 := User.updateData env now store user ⟨some text, none⟩
    let r2 := User.updateState env now r1.2.1 r1.1 StatusConstants.WAITING_AGE
    (r2.1, r2.2.1,
      formatL fuel MessageConstants.NAME_CONFIRMED.data [("name".data, text)])

/-- `TextHandler.handleWaitingAgeState`.  `parseInt(text)` then
`isNaN(age) || age < 1 || age > 120`. -/
def TextHandler.handleWaitingAgeState (fuel : Nat) (env : FailEnv) (now : Nat)
    (store : Store) (user : User) (text : List Char) :
    User × Store × Option (List Char) :=
  match jsParseInt text with
  | none => (user, store, some MessageConstants.INVALID_AGE.data)
  | some age =>
    if age < 1 ∨ 120 < age then
      (user, store, some MessageConstants.INVALID_AGE.data)
    else
      let r1 := User.updateData env now store user ⟨none, some age⟩
      let r2 := User.updateState env now r1.2.1 r1.1 StatusConstants.REGISTERED
      (r2.1, r2.2.1,
        formatL fuel MessageConstants.REGISTRATION_COMPLETED.data
          [("name".data, r1.1.data.name.getD []), ("age".data, (toString age).data)])

/-- `TextHandler.handleRegisteredState`. -/
def TextHandler.handleRegisteredState (fuel : Nat) (store : Store)
    (user : User) (text : List Char) : User × Store × Option (List Char) :=
  if text = helpKeyword then
    (user, store, some MessageConstants.HELP.data)
  else
    (user, store,
      formatL fuel MessageConstants.DEFAULT_RESPONSE.data
        [("name".data, user.data.name.getD [])])

/-- The `switch (user.state)` of `TextHandler.handle`; the `default`
branch replies the generic error text and performs no transition. -/
def TextHandler.dispatchState (fuel : Nat) (env : FailEnv) (now : Nat)
    (store : Store) (user : User) (text : List Char) :
    User × Store × Option (List Char) :=
  if user.state = StatusConstants.INITIAL then
    TextHandler.handleInitialState env now store user text
  else if user.state = StatusConstants.WAITING_NAME then
    TextHandler.handleWaitingNameState fuel env now store user text
  else if user.state = StatusConstants.WAITING_AGE then
    TextHandler.handleWaitingAgeState fuel env now store user text
  else if user.state = StatusConstants.REGISTERED then
    TextHandler.handleRegisteredState fuel store user text
  else
    (user, store, some MessageConstants.ERROR.data)

/-- The tail of `TextHandler.handle` after the empty-input guard: fetch
or create the user, dispatch on its state, reply with the formatted
response through the event's reply token (`event.replyToken || ''`). -/
def TextHandler.processUser (fuel : Nat) (env : FailEnv) (now : Nat) (store : Store)
    (userId : String) (text : List Char) (tok : String) : Store × List Send :=
  let found := User.findByUserId env now store userId
  let store3 := found.1
  let userAndStore : User × Store :=
    match found.2 with
    | some u => (u, store3)
    | none =>
      let u := User.new now userId
      (u, (User.save env now store3 u).1)
  let d := TextHandler.dispatchState fuel env now userAndStore.2 userAndStore.1 text
  match d.2.2 with
  | some response => (d.2.1, [Send.reply tok response])
  | none => (d.2.1, [])

/-- `TextHandler.handle`: log the inbound text, guard on a missing user id
or empty text, persist the message (ignoring the boolean result), fetch or
create the user, dispatch on the state, reply.  Nothing inside the `try`
raises in this model — `User.save`, `Message.save`, `User.findByUserId`
and the LINE transport all capture their own errors — so the surrounding
`catch` of the source is unreachable and the function is total; a `none`
response (formatter loop not terminating within `fuel`) produces an
invocation with no reply. -/
def TextHandler.handle (fuel : Nat) (env : FailEnv) (now : Nat) (store : Store)
    (ev : LineEvent) : Store × List Send :=
  let msgText := ev.message.bind LineMessage.text
  let store1 := Logger.log now store
    ("TextHandler handling message: ".data ++
      (match msgText with | some t => t | none => "undefined".data))
  let userId := (ev.source.userId.getD "")
  let text := msgText.getD []
  if userId = "" ∨ text = [] then (store1, [])
  else
    let store2 := (Message.save env now store1 userId "text" text).1
    TextHandler.processUser fuel env now store2 userId text (ev.replyToken.getD "")

/-! ### LineService (src/services/lineService.ts)

The gateway state records every send attempt, the log lines written
through the logger, and the number of `UrlFetchApp.fetch` calls made (the
transport oracle is consulted per call).  `post` captures both non-2xx
responses and thrown fetch errors and always returns a structured
`{code, body}` result — it never raises.  `Utilities.sleep(500)` is a pure
delay and has no observable effect in this model. -/

/-- Outcome of one `UrlFetchApp.fetch` call: an HTTP response, or the
fetch throwing. -/
inductive FetchOutcome
  | response (code : Nat) (body : List Char)
  | fetchError (msg : List Char)
deriving DecidableEq

/-- The structured `{code, body}` value `LineService.post` returns. -/
structure PostResult where
  code : Nat
  body : List Char
deriving DecidableEq

/-- Observable state of the messaging gateway. -/
structure SendState where
  sends : List Send
  logs : List (List Char)
  calls : Nat
deriving DecidableEq

/-- A transport serving every call with HTTP 200 and an empty body. -/
def okTransport : Nat → FetchOutcome := fun _ => .response 200 []

/-- A transport on which every fetch throws. -/
def downTransport : Nat → FetchOutcome := fun _ => .fetchError "network down".data

/-- `LineService.post`: perform the fetch (recording the attempt), log the
response code, log non-2xx bodies as errors, and catch a thrown fetch by
logging it and returning `{code: 500, body: message}`. -/
def LineService.post (transport : Nat → FetchOutcome) (st : SendState) (s : Send) :
    PostResult × SendState :=
  match transport (st.calls + 1) with
  | .response code body =>
    (⟨code, body⟩,
      { st with
          sends := st.sends ++ [s],
          calls := st.calls + 1,
          logs := st.logs ++
            (["LINE API response code: ".data ++ (toString code).data] ++
              (if 400 ≤ code then ["LINE API error: ".data ++ body] else [])) })
  | .fetchError msg =>
    (⟨500, msg⟩,
      { st with
          sends := st.sends ++ [s],
          calls := st.calls + 1,
          logs := st.logs ++ ["Error in post: ".data ++ msg] })

/-- `LineService.replyText`: POST to the reply endpoint. -/
def LineService.replyText (transport : Nat → FetchOutcome) (st : SendState)
    (replyToken : String) (text : List Char) : PostResult × SendState :=
  LineService.post transport st (.reply replyToken text)

/-- `LineService.pushText`: POST to the push endpoint. -/
def LineService.pushText (transport : Nat → FetchOutcome) (st : SendState)
    (userId : String) (text : List Char) : PostResult × SendState :=
  LineService.post transport st (.push userId text)

/-- The maximum single-message length (`MAX_MESSAGE_LENGTH`). -/
def MAX_MESSAGE_LENGTH : Nat := 4000

/-- The `while (remainingText.length > 0)` loop of
`LineService.sendLongMessage`: take up to 4000 units, push them behind the
continuation marker, drop them from the remainder, count the message. -/
def LineService.pushRemaining (transport : Nat → FetchOutcome) (userId : String) :
    List Char → Nat → SendState → Nat × SendState
  | remaining, count, st =>
    if h : remaining = [] then (count, st)
    else
      let currentPart :=
        if MAX_MESSAGE_LENGTH < remaining.length then remaining.take MAX_MESSAGE_LENGTH
        else remaining
      let st := (LineService.pushText transport st userId
        (MessageConstants.ANALYSIS_CONTINUED.data ++ currentPart)).2
      LineService.pushRemaining transport userId
        (remaining.drop currentPart.length) (count + 1) st
  termination_by remaining _ _ => remaining.length
  decreasing_by
    simp only [List.length_drop]
    have hlen : 0 < remaining.length := List.length_pos.mpr h
    split <;> simp [MAX_MESSAGE_LENGTH] <;> omega

/-- `LineService.sendLongMessage`: texts within the limit go out as a
single reply; longer texts send the first 4000 units with the reply token
and the rest as marker-prefixed pushes, then log the part count.  The
`catch` of the source cannot fire in this model (`post` and the logger
capture their own errors), so the function always returns `true`. -/
def LineService.sendLongMessage (transport : Nat → FetchOutcome) (st : SendState)
    (userId : String) (replyToken : String) (text : List Char) : Bool × SendState :=
  if text.length ≤ MAX_MESSAGE_LENGTH then
    let st := (LineService.replyText transport st replyToken text).2
    (true, st)
  else
    let firstPart := text.take MAX_MESSAGE_LENGTH
    let st := (LineService.replyText transport st replyToken firstPart).2
    let r := LineService.pushRemaining transport userId
      (text.drop MAX_MESSAGE_LENGTH) 1 st
    let st := { r.2 with logs := r.2.logs ++
      ["Sent long message in ".data ++ (toString r.1).data ++ " parts".data] }
    (true, st)

/-! Specification-side description of the chunk sequence (section 4.4 /
section 8 of the spec): the remainder after the first 4000 units is cut
into consecutive slices of up to 4000 units. -/

/-- Successive slices of at most 4000 units (spec wording: "repeatedly
take up to 4000 units from the remainder"). -/
def chunks4000 : List Char → List (List Char)
  | l =>
    if h : l = [] then []
    else l.take MAX_MESSAGE_LENGTH :: chunks4000 (l.drop MAX_MESSAGE_LENGTH)
  termination_by l => l.length
  decreasing_by
    have hlen : 0 < l.length := List.length_pos.mpr h
    show (l.drop MAX_MESSAGE_LENGTH).length < l.length
    rw [List.length_drop, MAX_MESSAGE_LENGTH]
    omega

/-- The send sequence section 4.4 prescribes for a text: one reply when it
fits, otherwise a reply with the first slice followed by marker-prefixed
pushes of the remaining slices. -/
def specSends (userId replyToken : String) (text : List Char) : List Send :=
  if text.length ≤ MAX_MESSAGE_LENGTH then [.reply replyToken text]
  else
    .reply replyToken (text.take MAX_MESSAGE_LENGTH) ::
      (chunks4000 (text.drop MAX_MESSAGE_LENGTH)).map
        (fun c => .push userId (MessageConstants.ANALYSIS_CONTINUED.data ++ c))

/-! ### Message retrieval (SpreadsheetService.getMessagesByUserId)

The source filters the rows on the user id, sorts them with the V8
stable `Array.prototype.sort` under the comparator
`(a, b) => dateB.getTime() - dateA.getTime()` (most recent first), then
truncates.  A stable sort under a consistent comparator is the unique
stable descending ordering, embedded here as Mathlib's stable
`List.insertionSort`. -/

/-- The ordering induced by the comparator of `getMessagesByUserId`:
most recent first. -/
def msgMoreRecent (a b : MessageRow) : Prop := b.timestamp ≤ a.timestamp

instance : DecidableRel msgMoreRecent := fun a b => Nat.decLe b.timestamp a.timestamp

instance : IsTotal MessageRow msgMoreRecent :=
  ⟨fun a b => Nat.le_total b.timestamp a.timestamp⟩

instance : IsTrans MessageRow msgMoreRecent :=
  ⟨fun _ _ _ hab hbc => Nat.le_trans hbc hab⟩

/-- `SpreadsheetService.getMessagesByUserId`: load all rows, keep those of
the user, sort most-recent-first, truncate to `limit`; rethrows a failure
of the medium. -/
def SpreadsheetService.getMessagesByUserId (fail : Bool) (store : Store)
    (uid : String) (limit : Nat) : Except String (List MessageRow) :=
  if fail then .error "spreadsheet read failed"
  else .ok
    (((store.messages.filter (fun row => row.userId = uid)).insertionSort
      msgMoreRecent).take limit)

/-- `getMessagesByUserId` with the default `limit = 10` of the source. -/
def SpreadsheetService.getMessagesByUserIdDefault (fail : Bool) (store : Store)
    (uid : String) : Except String (List MessageRow) :=
  SpreadsheetService.getMessagesByUserId fail store uid 10

/-! ### Specification-side definitions

These definitions follow the wording of the spec / claims, to be compared
with the source embeddings above. -/

/-- Claim wording (C9): "replaces every occurrence of `{key}` in the
template": a single left-to-right pass replacing each (non-overlapping)
occurrence present in the input, never revisiting inserted text.
Implemented with fuel equal to the input length, which always suffices
(each step consumes at least one input character). -/
def replaceAllGo (pat val : List Char) : Nat → List Char → List Char
  | 0, s => s
  | _ + 1, [] => []
  | fuel + 1, c :: rest =>
    if pat ≠ [] ∧ pat.isPrefixOf (c :: rest) then
      val ++ replaceAllGo pat val fuel ((c :: rest).drop pat.length)
    else c :: replaceAllGo pat val fuel rest

/-- Single-pass replacement of every occurrence of `pat` in `s` by `val`. -/
def replaceAll (pat val s : List Char) : List Char :=
  replaceAllGo pat val s.length s

/-- Claim wording (C5): "the text is an integer" — an optional sign
followed by one or more decimal digits and nothing else. -/
def isIntegerString (s : List Char) : Bool :=
  let core := match s with
    | '+' :: r => r
    | '-' :: r => r
    | r => r
  core ≠ [] && core.all Char.isDigit

/-- Claim wording (C1, section 4.2): the next state prescribed by the
transition table for a given current state and input text.  States
outside the four enum values stay unchanged (the handler's `default`
branch performs no transition).  The validity of an age input is the
code-level one (`parseInt` then range check); the divergence between that
and the table's literal "integer in [1,120]" is the subject of C5. -/
def specNextState (state : String) (text : List Char) : String :=
  if state = StatusConstants.INITIAL then
    if text = registerKeyword then StatusConstants.WAITING_NAME else state
  else if state = StatusConstants.WAITING_NAME then
    if (jsTrim text).length < 2 then state else StatusConstants.WAITING_AGE
  else if state = StatusConstants.WAITING_AGE then
    match jsParseInt text with
    | none => state
    | some age => if age < 1 ∨ 120 < age then state else StatusConstants.REGISTERED
  else state

/-- Claim wording (C1, section 4.2): the reply prescribed by the
transition table, as the output of the message formatter on the
prescribed template (`none` when the formatter loop does not terminate
within `fuel`).  `storedName` is the name attribute stored on the user
before the message was handled. -/
def specReply (fuel : Nat) (state : String) (text : List Char)
    (storedName : List Char) : Option (List Char) :=
  if state = StatusConstants.INITIAL then
    if text = registerKeyword then some MessageConstants.REGISTRATION_START.data
    else if text = helpKeyword then some MessageConstants.HELP.data
    else some MessageConstants.WELCOME.data
  else if state = StatusConstants.WAITING_NAME then
    if (jsTrim text).length < 2 then some MessageConstants.INVALID_NAME.data
    else formatL fuel MessageConstants.NAME_CONFIRMED.data [("name".data, text)]
  else if state = StatusConstants.WAITING_AGE then
    match jsParseInt text with
    | none => some MessageConstants.INVALID_AGE.data
    | some age =>
      if age < 1 ∨ 120 < age then some MessageConstants.INVALID_AGE.data
      else formatL fuel MessageConstants.REGISTRATION_COMPLETED.data
        [("name".data, storedName), ("age".data, (toString age).data)]
  else if state = StatusConstants.REGISTERED then
    if text = helpKeyword then some MessageConstants.HELP.data
    else formatL fuel MessageConstants.DEFAULT_RESPONSE.data [("name".data, storedName)]
  else some MessageConstants.ERROR.data

/-- Claim wording (C1): the user record after the table is applied — the
state advanced, the `name` / `age` attribute stored on the two accepting
transitions, `updatedAt` stamped exactly when a transition persists the
record. -/
def specPostUser (u : User) (text : List Char) (now : Nat) : User :=
  if u.state = StatusConstants.INITIAL then
    if text = registerKeyword then
      { u with state := StatusConstants.WAITING_NAME, updatedAt := some now }
    else u
  else if u.state = StatusConstants.WAITING_NAME then
    if (jsTrim text).length < 2 then u
    else
      { u with
          state := StatusConstants.WAITING_AGE,
          data := { u.data with name := some text },
          updatedAt := some now }
  else if u.state = StatusConstants.WAITING_AGE then
    match jsParseInt text with
    | none => u
    | some age =>
      if age < 1 ∨ 120 < age then u
      else
        { u with
            state := StatusConstants.REGISTERED,
            data := { u.data with age := some age },
            updatedAt := some now }
  else u

/-- Claim wording (C7): the first-match selection rule of section 4.1. -/
def specSelectHandler (ev : LineEvent) : Handler :=
  if ev.type = .message ∧ ev.message.map LineMessage.type = some .text then
    .textHandler
  else if ev.type = .message ∧ ev.message.map LineMessage.type = some .image then
    .imageHandler
  else if ev.type = .postback then .postbackHandler
  else .defaultHandler

/-- The reply attempts produced from an optional formatted response. -/
def replyList (token : String) : Option (List Char) → List Send
  | some r => [.reply token r]
  | none => []

/-- The conversation state the store records for a user id (the state
column of the first matching row). -/
def userStateIn (store : Store) (uid : String) : Option String :=
  (usersLookup uid store.users).map User.state

/-! ### Helper lemmas -/

theorem usersLookup_upsert (row : User) (users : List User) :
    usersLookup row.userId (upsertUsers row users) = some row := by
  induction users with
  | nil => simp [upsertUsers, usersLookup]
  | cons r rest ih =>
    by_cases h : r.userId = row.userId
    · simp [upsertUsers, usersLookup, h]
    · simp [upsertUsers, usersLookup, h, ih]

theorem usersLookup_upsert_of (uid : String) (row : User) (users : List User)
    (h : row.userId = uid) :
    usersLookup uid (upsertUsers row users) = some row :=
  h ▸ usersLookup_upsert row users

theorem usersLookup_userId {uid : String} {users : List User} {u : User}
    (h : usersLookup uid users = some u) : u.userId = uid := by
  induction users with
  | nil => simp [usersLookup] at h
  | cons r rest ih =>
    by_cases hr : r.userId = uid
    · simp [usersLookup, hr] at h
      rw [← h]
      exact hr
    · simp [usersLookup, hr] at h
      exact ih h

/-! ### Claim C7 -/

/-- Claim C7: for every inbound event the dispatcher selects exactly one
handler by first match — a text message gets the TextHandler, an image
message the ImageHandler, a postback the PostbackHandler, and every other
event (any other event kind, or a message of any other kind, or a message
event with no message payload) the DefaultHandler. -/
theorem createHandler_first_match (ev : LineEvent) :
    HandlerFactory.createHandler ev = specSelectHandler ev := by
  rcases ev with ⟨t, rt, src, ts, msg, pb⟩
  rcases msg with _ | ⟨mid, mt, mtext⟩ <;> cases t <;>
    first
      | rfl
      | (cases mt <;> rfl)

/-! ### Claim C2 -/

/-- Counterexample to claim C2: overwriting an existing row for `u1` with
a full 6-field record whose updated-timestamp is unset stores the record
verbatim — `findUserById` after the upsert returns exactly `u`, with the
updated-timestamp still unset rather than refreshed.  (The
`userData.length <= 5` branch of `saveUserData` that would push a fresh
`new Date()` — in both the overwrite and the insert branch, contrary to
the claim's "left unset on first insert" — is unreachable for the 6-tuple
`UserRow` values every caller passes.) -/
theorem saveUserData_keeps_stale_updatedAt :
    (SpreadsheetService.saveUserData false
        ⟨[⟨"u1", none, StatusConstants.REGISTERED, ⟨none, none⟩, 0, some 5⟩], [], []⟩
        ⟨"u1", none, StatusConstants.WAITING_NAME, ⟨none, none⟩, 0, none⟩).bind
      (fun s => SpreadsheetService.getUserDataByUserId false s "u1") =
      .ok (some ⟨"u1", none, StatusConstants.WAITING_NAME, ⟨none, none⟩, 0, none⟩) ∧
    (⟨"u1", none, StatusConstants.WAITING_NAME, ⟨none, none⟩, 0, none⟩ : User).updatedAt
      = none := by
  constructor
  · rfl
  · rfl

/-- Claim C2 as amended: `saveUserData` inserts a new row when the scan
finds no row with the user id and otherwise overwrites the first matched
row, in both cases writing the given 6-field record verbatim — so
find-after-upsert returns a record equal to `u` including its
updated-timestamp, which `saveUserData` never refreshes.  The refresh
happens one layer up: `User.updateState` and `User.updateData` stamp
`updatedAt` before saving, and the `User` constructor leaves it unset. -/
theorem saveUserData_roundtrip :
    (∀ (store : Store) (u : User),
      (SpreadsheetService.saveUserData false store u).bind
        (fun s => SpreadsheetService.getUserDataByUserId false s u.userId) =
        .ok (some u)) ∧
    (∀ (now : Nat) (store : Store) (u : User) (st : String),
      (User.updateState okEnv now store u st).1.updatedAt = some now) ∧
    (∀ (now : Nat) (store : Store) (u : User) (p : UserDataPatch),
      (User.updateData okEnv now store u p).1.updatedAt = some now) ∧
    (∀ (now : Nat) (uid : String), (User.new now uid).updatedAt = none) := by
  refine ⟨?_, ?_, ?_, ?_⟩
  · intro store u
    simp [SpreadsheetService.saveUserData, SpreadsheetService.getUserDataByUserId,
      Except.bind, usersLookup_upsert]
  · intro now store u st
    rfl
  · intro now store u p
    rfl
  · intro now uid
    rfl

/-! ### Claim C9 -/

/-- Counterexample to claim C9: on the template `{{k}k}` with the map
`k ↦ ""` the source loop replaces the template's single occurrence of
`{k}` (at index 1), which makes the surrounding braces close up into a
new `{k}` occurrence, and replaces that one too, ending with the empty
string — whereas replacing every occurrence of `{k}` that is in the
template yields `{k}`.  The two results differ, so `format` does not
implement "replace every occurrence of `{key}` in the template". -/
theorem format_replaces_cascaded_occurrences :
    formatL 3 ('{' :: '{' :: 'k' :: '}' :: 'k' :: '}' :: []) [(['k'], [])] =
      some [] ∧
    replaceAll (placeholderOf ['k']) [] ('{' :: '{' :: 'k' :: '}' :: 'k' :: '}' :: []) =
      '{' :: 'k' :: '}' :: [] ∧
    (([] : List Char) ≠ '{' :: 'k' :: '}' :: []) := by
  refine ⟨by decide, by decide, by decide⟩

/-- Claim C9 as amended: for each key of the map (in map order) `format`
repeatedly replaces the *first* occurrence of `{key}` until none remains,
so occurrences formed by earlier replacements are replaced as well and
the loop can diverge when a value re-introduces its own placeholder; on
termination the result contains no occurrence of the processed
placeholder at all, a template with no occurrence of the placeholder is
returned unchanged by that key's loop (in particular placeholders of keys
absent from the map are not looked at), and an empty map returns the
template verbatim; no error is raised. -/
theorem whileReplace_fixpoint :
    (∀ (pat val : List Char) (n : Nat) (s out : List Char),
      whileReplace pat val n s = some out →
      containsSub out pat = false ∧ (containsSub s pat = false → out = s)) ∧
    (∀ (fuel : Nat) (template : List Char), formatL fuel template [] = some template) := by
  constructor
  · intro pat val n
    induction n with
    | zero =>
      intro s out h
      unfold whileReplace at h
      by_cases hc : containsSub s pat = true <;> simp [hc] at h
      subst h
      exact ⟨Bool.eq_false_iff.mpr (fun habs => by simp [habs] at hc), fun _ => rfl⟩
    | succ n ih =>
      intro s out h
      unfold whileReplace at h
      by_cases hc : containsSub s pat = true <;> simp [hc] at h
      · exact ⟨(ih _ _ h).1, fun hfalse => by simp [hfalse] at hc⟩
      · subst h
        exact ⟨Bool.eq_false_iff.mpr (fun habs => by simp [habs] at hc), fun _ => rfl⟩
  · intro fuel template
    rfl

/-- Witness for the amended C9 on a concrete input: one replacement of
`{k}` by `v` in `a{k}b` terminates with `avb`, which contains no further
occurrence. -/
theorem whileReplace_fixpoint_witness :
    (whileReplace (placeholderOf ['k']) ['v'] 5 ('a' :: '{' :: 'k' :: '}' :: 'b' :: [])
        = some ('a' :: 'v' :: 'b' :: [])) ∧
    (containsSub ('a' :: 'v' :: 'b' :: []) (placeholderOf ['k']) = false ∧
      (containsSub ('a' :: '{' :: 'k' :: '}' :: 'b' :: []) (placeholderOf ['k']) = false →
        ('a' :: 'v' :: 'b' :: []) = ('a' :: '{' :: 'k' :: '}' :: 'b' :: []))) :=
  ⟨by decide, whileReplace_fixpoint.1 (placeholderOf ['k']) ['v'] 5 _ _ (by decide)⟩

/-! ### Claim C5 -/

/-- A user waiting for the age input, name already stored. -/
def sampleAgeUser : User :=
  ⟨"U1", none, StatusConstants.WAITING_AGE, ⟨some ['A', 'l'], none⟩, 0, none⟩

/-- A store holding exactly `sampleAgeUser`. -/
def sampleAgeStore : Store := ⟨[sampleAgeUser], [], []⟩

/-- Counterexample to claim C5: the input `12abc` is not an integer, yet
`handleWaitingAgeState` accepts it — `parseInt` reads the longest leading
digit prefix, yielding 12, the age 12 is stored and the state becomes
REGISTERED instead of staying WAITING_AGE with a validation error. -/
theorem waitingAge_accepts_non_integer :
    isIntegerString "12abc".data = false ∧
    (TextHandler.handleWaitingAgeState 5 okEnv 7 sampleAgeStore sampleAgeUser
        "12abc".data).1.state = StatusConstants.REGISTERED ∧
    (TextHandler.handleWaitingAgeState 5 okEnv 7 sampleAgeStore sampleAgeUser
        "12abc".data).1.data.age = some 12 ∧
    (TextHandler.handleWaitingAgeState 5 okEnv 7 sampleAgeStore sampleAgeUser
        "12abc".data).2.2 ≠ some MessageConstants.INVALID_AGE.data := by
  refine ⟨by decide, by decide, by decide, by decide⟩

/-- Claim C5 as amended: in WAITING_AGE the input is parsed with JS
`parseInt` (longest leading integer prefix after optional whitespace and
sign, `0x` honoured); a `NaN` parse or a parsed value outside `[1,120]`
replies the validation error and leaves user and store untouched, while a
parsed value inside `[1,120]` stores the age attribute, moves the state
to REGISTERED and persists the record.  The boundary examples of the
claim are unchanged: non-numeric input, `0` and `121` are rejected, `1`
and `120` are accepted — but e.g. `12abc` is accepted as 12. -/
theorem handleWaitingAgeState_spec :
    (∀ (fuel now : Nat) (store : Store) (u : User) (t : List Char),
      jsParseInt t = none →
      TextHandler.handleWaitingAgeState fuel okEnv now store u t =
        (u, store, some MessageConstants.INVALID_AGE.data)) ∧
    (∀ (fuel now : Nat) (store : Store) (u : User) (t : List Char) (a : Int),
      jsParseInt t = some a → a < 1 ∨ 120 < a →
      TextHandler.handleWaitingAgeState fuel okEnv now store u t =
        (u, store, some MessageConstants.INVALID_AGE.data)) ∧
    (∀ (fuel now : Nat) (store : Store) (u : User) (t : List Char) (a : Int),
      jsParseInt t = some a → 1 ≤ a → a ≤ 120 →
      (TextHandler.handleWaitingAgeState fuel okEnv now store u t).1.state
          = StatusConstants.REGISTERED ∧
      (TextHandler.handleWaitingAgeState fuel okEnv now store u t).1.data.age = some a ∧
      (TextHandler.handleWaitingAgeState fuel okEnv now store u t).1.data.name
          = u.data.name ∧
      usersLookup u.userId
          (TextHandler.handleWaitingAgeState fuel okEnv now store u t).2.1.users =
        some (TextHandler.handleWaitingAgeState fuel okEnv now store u t).1 ∧
      (TextHandler.handleWaitingAgeState fuel okEnv now store u t).2.2 =
        formatL fuel MessageConstants.REGISTRATION_COMPLETED.data
          [("name".data, u.data.name.getD []), ("age".data, (toString a).data)]) ∧
    ((TextHandler.handleWaitingAgeState 5 okEnv 7 sampleAgeStore sampleAgeUser
        "abc".data).2.2 = some MessageConstants.INVALID_AGE.data ∧
      (TextHandler.handleWaitingAgeState 5 okEnv 7 sampleAgeStore sampleAgeUser
        "abc".data).1.state = StatusConstants.WAITING_AGE) ∧
    ((TextHandler.handleWaitingAgeState 5 okEnv 7 sampleAgeStore sampleAgeUser
        "0".data).2.2 = some MessageConstants.INVALID_AGE.data ∧
      (TextHandler.handleWaitingAgeState 5 okEnv 7 sampleAgeStore sampleAgeUser
        "0".data).1.state = StatusConstants.WAITING_AGE) ∧
    ((TextHandler.handleWaitingAgeState 5 okEnv 7 sampleAgeStore sampleAgeUser
        "121".data).2.2 = some MessageConstants.INVALID_AGE.data ∧
      (TextHandler.handleWaitingAgeState 5 okEnv 7 sampleAgeStore sampleAgeUser
        "121".data).1.state = StatusConstants.WAITING_AGE) ∧
    ((TextHandler.handleWaitingAgeState 5 okEnv 7 sampleAgeStore sampleAgeUser
        "1".data).1.state = StatusConstants.REGISTERED ∧
      (TextHandler.handleWaitingAgeState 5 okEnv 7 sampleAgeStore sampleAgeUser
        "1".data).1.data.age = some 1) ∧
    ((TextHandler.handleWaitingAgeState 5 okEnv 7 sampleAgeStore sampleAgeUser
        "120".data).1.state = StatusConstants.REGISTERED ∧
      (TextHandler.handleWaitingAgeState 5 okEnv 7 sampleAgeStore sampleAgeUser
        "120".data).1.data.age = some 120) := by
  refine ⟨?_, ?_, ?_, by decide, by decide, by decide, by decide, by decide⟩
  · intro fuel now store u t hp
    unfold TextHandler.handleWaitingAgeState
    rw [hp]
  · intro fuel now store u t a hp hrange
    unfold TextHandler.handleWaitingAgeState
    rw [hp]
    simp [hrange]
  · intro fuel now store u t a hp h1 h2
    have hrange : ¬(a < 1 ∨ 120 < a) := by omega
    unfold TextHandler.handleWaitingAgeState
    rw [hp]
    simp only [hrange, if_false, if_neg hrange]
    refine ⟨rfl, rfl, rfl, ?_, rfl⟩
    simp [User.updateState, User.updateData, User.save,
      SpreadsheetService.saveUserData, okEnv]
    exact usersLookup_upsert_of _ _ _ rfl

/-- Witness for the amended C5: the non-numeric input `abc` is rejected
with the validation error and no change to user or store. -/
theorem handleWaitingAgeState_spec_witness :
    jsParseInt "abc".data = none ∧
    TextHandler.handleWaitingAgeState 5 okEnv 7 sampleAgeStore sampleAgeUser "abc".data =
      (sampleAgeUser, sampleAgeStore, some MessageConstants.INVALID_AGE.data) :=
  ⟨by decide,
    handleWaitingAgeState_spec.1 5 7 sampleAgeStore sampleAgeUser "abc".data (by decide)⟩

/-! ### Claim C8 -/

/-- Four message rows: three for user `U` at timestamps 1 < 2 < 3 and one
for another user. -/
def sampleMessages : List MessageRow :=
  [⟨"U", "text", ['a'], 1⟩, ⟨"V", "text", ['x'], 5⟩, ⟨"U", "text", ['b'], 2⟩,
    ⟨"U", "text", ['c'], 3⟩]

/-- Claim C8: `getMessagesByUserId` keeps exactly the stored rows of the
requested user, sorted most-recent-first, truncated to `limit` (the
argumentless variant uses the default 10); for one user with messages at
timestamps 1 < 2 < 3, limit 2 returns exactly the rows at timestamps
3 and 2 in that order. -/
theorem getMessagesByUserId_spec :
    (∀ (store : Store) (uid : String) (limit : Nat) (out : List MessageRow),
      SpreadsheetService.getMessagesByUserId false store uid limit = .ok out →
      out.all (fun m => decide (m.userId = uid) && decide (m ∈ store.messages)) = true ∧
      List.Pairwise msgMoreRecent out ∧
      out.length =
        min limit (store.messages.filter (fun row => row.userId = uid)).length) ∧
    (∀ (store : Store) (uid : String),
      SpreadsheetService.getMessagesByUserIdDefault false store uid =
        SpreadsheetService.getMessagesByUserId false store uid 10) ∧
    SpreadsheetService.getMessagesByUserId false ⟨[], sampleMessages, []⟩ "U" 2 =
      .ok [⟨"U", "text", ['c'], 3⟩, ⟨"U", "text", ['b'], 2⟩] := by
  refine ⟨?_, fun store uid => rfl, by rfl⟩
  intro store uid limit out h
  simp only [SpreadsheetService.getMessagesByUserId, if_neg Bool.false_ne_true,
    Except.ok.injEq] at h
  subst h
  refine ⟨?_, ?_, ?_⟩
  · rw [List.all_eq_true]
    intro m hm
    have hm1 : m ∈ (store.messages.filter
        (fun row => decide (row.userId = uid))).insertionSort msgMoreRecent :=
      List.take_subset _ _ hm
    have hm2 := (List.perm_insertionSort msgMoreRecent _).mem_iff.mp hm1
    have hm3 := List.mem_filter.mp hm2
    simp only [Bool.and_eq_true, decide_eq_true_eq]
    exact ⟨of_decide_eq_true hm3.2, hm3.1⟩
  · exact List.Pairwise.sublist (List.take_sublist _ _)
      (List.sorted_insertionSort msgMoreRecent _)
  · rw [List.length_take, (List.perm_insertionSort msgMoreRecent _).length_eq]

/-- Witness for C8 at the concrete store: the returned rows all belong to
`U`, are sorted most-recent-first, and realise `min 2 3` rows. -/
theorem getMessagesByUserId_spec_witness :
    SpreadsheetService.getMessagesByUserId false ⟨[], sampleMessages, []⟩ "U" 2 =
      .ok [⟨"U", "text", ['c'], 3⟩, ⟨"U", "text", ['b'], 2⟩] ∧
    ([⟨"U", "text", ['c'], 3⟩, ⟨"U", "text", ['b'], 2⟩] : List MessageRow).all
        (fun m => decide (m.userId = "U") &&
          decide (m ∈ (⟨[], sampleMessages, []⟩ : Store).messages)) = true ∧
    List.Pairwise msgMoreRecent
      ([⟨"U", "text", ['c'], 3⟩, ⟨"U", "text", ['b'], 2⟩] : List MessageRow) ∧
    ([⟨"U", "text", ['c'], 3⟩, ⟨"U", "text", ['b'], 2⟩] : List MessageRow).length =
      min 2 ((⟨[], sampleMessages, []⟩ : Store).messages.filter
        (fun row => row.userId = "U")).length :=
  ⟨by rfl,
    getMessagesByUserId_spec.1 ⟨[], sampleMessages, []⟩ "U" 2
      [⟨"U", "text", ['c'], 3⟩, ⟨"U", "text", ['b'], 2⟩] (by rfl)⟩

/-! ### Claim C3 / C6 helper lemmas -/

theorem chunks4000_nil : chunks4000 [] = [] := by
  rw [chunks4000]
  rfl

theorem chunks4000_cons {l : List Char} (h : l ≠ []) :
    chunks4000 l =
      l.take MAX_MESSAGE_LENGTH :: chunks4000 (l.drop MAX_MESSAGE_LENGTH) := by
  rw [chunks4000]
  exact dif_neg h

theorem chunks4000_join_aux :
    ∀ (n : Nat) (l : List Char), l.length ≤ n → (chunks4000 l).flatten = l := by
  intro n
  induction n with
  | zero =>
    intro l h
    have hl : l = [] := List.eq_nil_of_length_eq_zero (Nat.le_zero.mp h)
    subst hl
    simp [chunks4000_nil]
  | succ n ih =>
    intro l h
    by_cases hl : l = []
    · subst hl
      simp [chunks4000_nil]
    · rw [chunks4000_cons hl, List.flatten_cons]
      have hpos : 0 < l.length := List.length_pos.mpr hl
      have hdrop : (l.drop MAX_MESSAGE_LENGTH).length ≤ n := by
        rw [List.length_drop]
        simp only [MAX_MESSAGE_LENGTH]
        omega
      rw [ih _ hdrop]
      exact List.take_append_drop _ l

/-- The chunk slices reassemble to the original remainder. -/
theorem chunks4000_join (l : List Char) : (chunks4000 l).flatten = l :=
  chunks4000_join_aux l.length l le_rfl

theorem chunks4000_sizes_aux :
    ∀ (n : Nat) (l : List Char), l.length ≤ n →
      (chunks4000 l).all (fun c => decide (c.length ≤ 4000) && decide (c ≠ [])) = true := by
  intro n
  induction n with
  | zero =>
    intro l h
    have hl : l = [] := List.eq_nil_of_length_eq_zero (Nat.le_zero.mp h)
    subst hl
    simp [chunks4000_nil]
  | succ n ih =>
    intro l h
    by_cases hl : l = []
    · subst hl
      simp [chunks4000_nil]
    · rw [chunks4000_cons hl]
      have hpos : 0 < l.length := List.length_pos.mpr hl
      have hdrop : (l.drop MAX_MESSAGE_LENGTH).length ≤ n := by
        rw [List.length_drop]
        simp only [MAX_MESSAGE_LENGTH]
        omega
      rw [List.all_cons, ih _ hdrop]
      simp only [Bool.and_true, Bool.and_eq_true, decide_eq_true_eq]
      constructor
      · rw [List.length_take]
        simp only [MAX_MESSAGE_LENGTH]
        omega
      · rw [Ne, List.take_eq_nil_iff]
        exact not_or.mpr ⟨by simp [MAX_MESSAGE_LENGTH], hl⟩

/-- Every chunk is at most 4000 units and nonempty. -/
theorem chunks4000_sizes (l : List Char) :
    (chunks4000 l).all (fun c => decide (c.length ≤ 4000) && decide (c ≠ [])) = true :=
  chunks4000_sizes_aux l.length l le_rfl

theorem post_sends (transport : Nat → FetchOutcome) (st : SendState) (s : Send) :
    (LineService.post transport st s).2.sends = st.sends ++ [s] := by
  unfold LineService.post
  cases h : transport (st.calls + 1) <;> simp [h]

theorem post_returns_result (transport : Nat → FetchOutcome) (st : SendState) (s : Send) :
    (LineService.post transport st s).1 =
      match transport (st.calls + 1) with
      | .response code body => ⟨code, body⟩
      | .fetchError msg => ⟨500, msg⟩ := by
  unfold LineService.post
  cases h : transport (st.calls + 1) <;> simp [h]

theorem pushRemaining_run :
    ∀ (n : Nat) (rem : List Char), rem.length ≤ n →
      ∀ (transport : Nat → FetchOutcome) (uid : String) (count : Nat) (st : SendState),
      (LineService.pushRemaining transport uid rem count st).2.sends =
        st.sends ++ (chunks4000 rem).map
          (fun c => Send.push uid (MessageConstants.ANALYSIS_CONTINUED.data ++ c)) ∧
      (LineService.pushRemaining transport uid rem count st).1 =
        count + (chunks4000 rem).length := by
  intro n
  induction n with
  | zero =>
    intro rem h
    have hl : rem = [] := List.eq_nil_of_length_eq_zero (Nat.le_zero.mp h)
    subst hl
    intro transport uid count st
    rw [LineService.pushRemaining]
    simp [chunks4000_nil]
  | succ n ih =>
    intro rem h transport uid count st
    by_cases hl : rem = []
    · subst hl
      rw [LineService.pushRemaining]
      simp [chunks4000_nil]
    · rw [LineService.pushRemaining, dif_neg hl]
      have hpos : 0 < rem.length := List.length_pos.mpr hl
      by_cases hlen : MAX_MESSAGE_LENGTH < rem.length
      · simp only [if_pos hlen]
        have hcp : (rem.take MAX_MESSAGE_LENGTH).length = MAX_MESSAGE_LENGTH := by
          rw [List.length_take]
          omega
        rw [hcp]
        have hdrop : (rem.drop MAX_MESSAGE_LENGTH).length ≤ n := by
          rw [List.length_drop]
          simp only [MAX_MESSAGE_LENGTH] at hlen ⊢
          omega
        have hih := ih (rem.drop MAX_MESSAGE_LENGTH) hdrop transport uid (count + 1)
          (LineService.pushText transport st uid
            (MessageConstants.ANALYSIS_CONTINUED.data ++ rem.take MAX_MESSAGE_LENGTH)).2
        rw [hih.1, hih.2, chunks4000_cons hl]
        constructor
        · unfold LineService.pushText
          rw [post_sends]
          simp
        · simp only [List.length_cons]
          omega
      · simp only [if_neg hlen]
        have hle : rem.length ≤ MAX_MESSAGE_LENGTH := Nat.le_of_not_lt hlen
        have hdropnil : rem.drop rem.length = [] := by
          simp [List.drop_length]
        rw [hdropnil]
        rw [LineService.pushRemaining]
        simp only [dite_true, dif_pos]
        have hchunks : chunks4000 rem = [rem] := by
          rw [chunks4000_cons hl, List.take_of_length_le hle,
            List.drop_eq_nil_of_le hle, chunks4000_nil]
        rw [hchunks]
        constructor
        · unfold LineService.pushText
          rw [post_sends]
          simp
        · simp

/-- The full run of `sendLongMessage`: it returns `true` and its send
trace is exactly `specSends`, for every transport behaviour. -/
theorem sendLongMessage_run (transport : Nat → FetchOutcome) (st : SendState)
    (uid tok : String) (text : List Char) :
    (LineService.sendLongMessage transport st uid tok text).1 = true ∧
    (LineService.sendLongMessage transport st uid tok text).2.sends =
      st.sends ++ specSends uid tok text := by
  unfold LineService.sendLongMessage specSends
  by_cases hlen : text.length ≤ MAX_MESSAGE_LENGTH
  · simp only [if_pos hlen]
    refine ⟨trivial, ?_⟩
    unfold LineService.replyText
    rw [post_sends]
  · simp only [if_neg hlen]
    have hrun := pushRemaining_run (text.drop MAX_MESSAGE_LENGTH).length
      (text.drop MAX_MESSAGE_LENGTH) le_rfl transport uid 1
      (LineService.replyText transport st tok (text.take MAX_MESSAGE_LENGTH)).2
    refine ⟨trivial, ?_⟩
    rw [hrun.1]
    unfold LineService.replyText
    rw [post_sends]
    simp

theorem replicate_ne_nil (n : Nat) (hn : n ≠ 0) (a : Char) :
    List.replicate n a ≠ [] := by
  intro h
  have hl := congrArg List.length h
  rw [List.length_replicate, List.length_nil] at hl
  exact hn hl

/-! ### Claim C3 -/

/-- Claim C3: a text of at most 4000 units goes out as exactly one reply
with the whole text and no pushes; a longer text goes out as the
4000-unit first slice via the reply token followed by the remaining
slices of up to 4000 units as pushes, each prefixed with the fixed
continuation marker; the slices reassemble to the original text (every
slice nonempty and within the limit); in particular a 9000-unit text
produces exactly the three sends 4000 / 4000 / 1000. -/
theorem spec_chunks_9000 :
    chunks4000 (List.replicate 5000 'a') =
      [List.replicate 4000 'a', List.replicate 1000 'a'] := by
  have h1 : min MAX_MESSAGE_LENGTH 5000 = 4000 := by
    rw [MAX_MESSAGE_LENGTH]
    omega
  have h2 : 5000 - MAX_MESSAGE_LENGTH = 1000 := by
    rw [MAX_MESSAGE_LENGTH]
  have h3 : min MAX_MESSAGE_LENGTH 1000 = 1000 := by
    rw [MAX_MESSAGE_LENGTH]
    omega
  have h4 : (1000 : Nat) - MAX_MESSAGE_LENGTH = 0 := by
    rw [MAX_MESSAGE_LENGTH]
  rw [chunks4000_cons (replicate_ne_nil _ (by omega) _),
    List.take_replicate, List.drop_replicate, h1, h2,
    chunks4000_cons (replicate_ne_nil _ (by omega) _),
    List.take_replicate, List.drop_replicate, h3, h4, List.replicate_zero,
    chunks4000_nil]

theorem specSends_take_drop_9000 :
    (List.replicate 9000 'a').take MAX_MESSAGE_LENGTH = List.replicate 4000 'a' ∧
    (List.replicate 9000 'a').drop MAX_MESSAGE_LENGTH = List.replicate 5000 'a' := by
  have h1 : min MAX_MESSAGE_LENGTH 9000 = 4000 := by
    rw [MAX_MESSAGE_LENGTH]
    omega
  have h2 : 9000 - MAX_MESSAGE_LENGTH = 5000 := by
    rw [MAX_MESSAGE_LENGTH]
  rw [List.take_replicate, List.drop_replicate, h1, h2]
  exact ⟨rfl, rfl⟩


theorem sendLongMessage_chunking :
    (∀ (transport : Nat → FetchOutcome) (st : SendState) (uid tok : String)
        (text : List Char),
      text.length ≤ 4000 →
      (LineService.sendLongMessage transport st uid tok text).1 = true ∧
      (LineService.sendLongMessage transport st uid tok text).2.sends =
        st.sends ++ [Send.reply tok text]) ∧
    (∀ (transport : Nat → FetchOutcome) (st : SendState) (uid tok : String)
        (text : List Char),
      4000 < text.length →
      (LineService.sendLongMessage transport st uid tok text).2.sends =
        st.sends ++ (Send.reply tok (text.take 4000) ::
          (chunks4000 (text.drop 4000)).map
            (fun c => Send.push uid (MessageConstants.ANALYSIS_CONTINUED.data ++ c)))) ∧
    (∀ text : List Char, text.take 4000 ++ (chunks4000 (text.drop 4000)).flatten = text) ∧
    (∀ l : List Char,
      (chunks4000 l).all (fun c => decide (c.length ≤ 4000) && decide (c ≠ [])) = true) ∧
    (LineService.sendLongMessage okTransport ⟨[], [], 0⟩ "U" "tok"
        (List.replicate 9000 'a')).2.sends =
      [Send.reply "tok" (List.replicate 4000 'a'),
        Send.push "U" (MessageConstants.ANALYSIS_CONTINUED.data ++ List.replicate 4000 'a'),
        Send.push "U" (MessageConstants.ANALYSIS_CONTINUED.data ++ List.replicate 1000 'a')] := by
  refine ⟨?_, ?_, ?_, chunks4000_sizes, ?_⟩
  · intro transport st uid tok text h
    have hr := sendLongMessage_run transport st uid tok text
    refine ⟨hr.1, ?_⟩
    rw [hr.2]
    unfold specSends
    simp only [MAX_MESSAGE_LENGTH]
    rw [if_pos h]
  · intro transport st uid tok text h
    have hr := sendLongMessage_run transport st uid tok text
    rw [hr.2]
    unfold specSends
    simp only [MAX_MESSAGE_LENGTH]
    rw [if_neg (Nat.not_le.mpr h)]
  · intro text
    rw [chunks4000_join]
    exact List.take_append_drop 4000 text
  · have hr := sendLongMessage_run okTransport ⟨[], [], 0⟩ "U" "tok"
      (List.replicate 9000 'a')
    rw [hr.2]
    unfold specSends
    rw [if_neg (by rw [List.length_replicate]; decide)]
    rw [specSends_take_drop_9000.1, specSends_take_drop_9000.2, spec_chunks_9000]
    rfl

/-- Witness for C3: a three-character text is sent as a single reply. -/
theorem sendLongMessage_chunking_witness :
    ("abc".data.length ≤ 4000) ∧
    ((LineService.sendLongMessage okTransport ⟨[], [], 0⟩ "U" "tok" "abc".data).1 = true ∧
      (LineService.sendLongMessage okTransport ⟨[], [], 0⟩ "U" "tok" "abc".data).2.sends =
        ([] : List Send) ++ [Send.reply "tok" "abc".data]) :=
  ⟨by decide, sendLongMessage_chunking.1 okTransport ⟨[], [], 0⟩ "U" "tok" "abc".data (by decide)⟩

/-! ### Claim C6 -/

/-- Counterexample to claim C6: with a transport on which every fetch
throws, a 9000-unit text still performs all three sends and
`sendLongMessage` still returns `true` — a transport error neither aborts
the remaining sends nor makes the function return `false`. -/
theorem sendLongMessage_sends_despite_transport_errors :
    (LineService.sendLongMessage downTransport ⟨[], [], 0⟩ "U" "tok"
        (List.replicate 9000 'a')).1 = true ∧
    (LineService.sendLongMessage downTransport ⟨[], [], 0⟩ "U" "tok"
        (List.replicate 9000 'a')).2.sends.length = 3 := by
  have hr := sendLongMessage_run downTransport ⟨[], [], 0⟩ "U" "tok"
    (List.replicate 9000 'a')
  refine ⟨hr.1, ?_⟩
  rw [hr.2]
  unfold specSends
  rw [if_neg (by rw [List.length_replicate]; decide)]
  rw [specSends_take_drop_9000.1, specSends_take_drop_9000.2, spec_chunks_9000]
  rfl

/-- Claim C6 as amended: `sendLongMessage` always returns `true` and its
send sequence is independent of the transport's behaviour — transport
errors are captured inside the shared `post` helper, which logs them and
returns the structured `{code: 500, body}` result instead of raising, so
no error ever aborts the chunk sequence. -/
theorem sendLongMessage_transport_independent :
    (∀ (transport transportAlt : Nat → FetchOutcome) (st : SendState)
        (uid tok : String) (text : List Char),
      (LineService.sendLongMessage transport st uid tok text).1 = true ∧
      (LineService.sendLongMessage transport st uid tok text).2.sends =
        (LineService.sendLongMessage transportAlt st uid tok text).2.sends) ∧
    (∀ (st : SendState) (s : Send) (msg : List Char),
      (LineService.post (fun _ => .fetchError msg) st s).1 = ⟨500, msg⟩ ∧
      (LineService.post (fun _ => .fetchError msg) st s).2.logs =
        st.logs ++ ["Error in post: ".data ++ msg] ∧
      (LineService.post (fun _ => .fetchError msg) st s).2.sends = st.sends ++ [s]) := by
  constructor
  · intro transport transportAlt st uid tok text
    exact ⟨(sendLongMessage_run transport st uid tok text).1,
      ((sendLongMessage_run transport st uid tok text).2).trans
        ((sendLongMessage_run transportAlt st uid tok text).2).symm⟩
  · intro st s msg
    exact ⟨rfl, rfl, rfl⟩

/-! ### TextHandler characterization -/

/-- The user record `TextHandler.handle` works with: the stored row if one
exists, else the freshly constructed `new User(userId)`. -/
def lookupOrNew (store : Store) (uid : String) (now : Nat) : User :=
  match usersLookup uid store.users with
  | some u => u
  | none => User.new now uid

theorem save_ok_users (now : Nat) (store : Store) (u : User) :
    (User.save okEnv now store u).1.users = upsertUsers u store.users := rfl

theorem dispatchState_char (fuel : Nat) (fm fu : Bool) (now : Nat) (store : Store)
    (u : User) (t : List Char) (uid : String) (hu : u.userId = uid) :
    (TextHandler.dispatchState fuel ⟨fm, fu, false⟩ now store u t).2.2 =
      specReply fuel u.state t (u.data.name.getD []) ∧
    (fm = false → fu = false →
      usersLookup uid store.users = some u →
      usersLookup uid
          (TextHandler.dispatchState fuel ⟨fm, fu, false⟩ now store u t).2.1.users =
        some (specPostUser u t now)) := by
  unfold TextHandler.dispatchState specReply specPostUser
  by_cases h1 : u.state = StatusConstants.INITIAL
  · simp only [if_pos h1]
    unfold TextHandler.handleInitialState
    by_cases hreg : t = registerKeyword
    · simp only [if_pos hreg]
      refine ⟨by trivial, ?_⟩
      intro hfm hfu _
      subst hfm
      subst hfu
      simp only [User.updateState, User.save, SpreadsheetService.saveUserData,
        Bool.false_eq_true, if_neg]
      exact usersLookup_upsert_of uid _ _ hu
    · simp only [if_neg hreg]
      by_cases hhelp : t = helpKeyword
      · simp only [if_pos hhelp]
        exact ⟨by trivial, fun _ _ hlast => hlast⟩
      · simp only [if_neg hhelp]
        exact ⟨by trivial, fun _ _ hlast => hlast⟩
  · simp only [if_neg h1]
    by_cases h2 : u.state = StatusConstants.WAITING_NAME
    · simp only [if_pos h2]
      unfold TextHandler.handleWaitingNameState
      by_cases hshort : (jsTrim t).length < 2
      · simp only [if_pos hshort]
        exact ⟨by trivial, fun _ _ hlast => hlast⟩
      · simp only [if_neg hshort]
        refine ⟨by trivial, ?_⟩
        intro hfm hfu _
        subst hfm
        subst hfu
        simp only [User.updateData, User.updateState, User.save,
          SpreadsheetService.saveUserData, Bool.false_eq_true, if_neg]
        exact usersLookup_upsert_of uid _ _ hu
    · simp only [if_neg h2]
      by_cases h3 : u.state = StatusConstants.WAITING_AGE
      · simp only [if_pos h3]
        unfold TextHandler.handleWaitingAgeState
        cases hp : jsParseInt t with
        | none =>
          exact ⟨by trivial, fun _ _ hlast => hlast⟩
        | some age =>
          by_cases hr : age < 1 ∨ 120 < age
          · simp only [if_pos hr]
            exact ⟨by trivial, fun _ _ hlast => hlast⟩
          · simp only [if_neg hr]
            refine ⟨by trivial, ?_⟩
            intro hfm hfu _
            subst hfm
            subst hfu
            simp only [User.updateData, User.updateState, User.save,
              SpreadsheetService.saveUserData, Bool.false_eq_true, if_neg]
            exact usersLookup_upsert_of uid _ _ hu
      · simp only [if_neg h3]
        by_cases h4 : u.state = StatusConstants.REGISTERED
        · simp only [if_pos h4]
          unfold TextHandler.handleRegisteredState
          by_cases hhelp : t = helpKeyword
          · simp only [if_pos hhelp]
            exact ⟨by trivial, fun _ _ hlast => hlast⟩
          · simp only [if_neg hhelp]
            exact ⟨by trivial, fun _ _ hlast => hlast⟩
        · simp only [if_neg h4]
          exact ⟨by trivial, fun _ _ hlast => hlast⟩

theorem message_save_users (env : FailEnv) (now : Nat) (store : Store)
    (uid ty : String) (c : List Char) :
    (Message.save env now store uid ty c).1.users = store.users := by
  unfold Message.save SpreadsheetService.saveMessageData
  cases h : env.failMessageWrite <;>
    simp [h, Logger.error, SpreadsheetService.saveLog]


theorem findByUserId_ok (fm fu : Bool) (now : Nat) (store : Store) (uid : String) :
    User.findByUserId ⟨fm, fu, false⟩ now store uid =
      (store, usersLookup uid store.users) := by
  unfold User.findByUserId SpreadsheetService.getUserDataByUserId
  rfl

theorem processUser_char (fuel : Nat) (fm fu : Bool) (now : Nat) (store : Store)
    (uid : String) (t : List Char) (tok : String) :
    (TextHandler.processUser fuel ⟨fm, fu, false⟩ now store uid t tok).2 =
      replyList tok
        (specReply fuel (lookupOrNew store uid now).state t
          ((lookupOrNew store uid now).data.name.getD [])) ∧
    (fm = false → fu = false →
      usersLookup uid
          (TextHandler.processUser fuel ⟨fm, fu, false⟩ now store uid t tok).1.users =
        some (specPostUser (lookupOrNew store uid now) t now)) := by
  unfold TextHandler.processUser lookupOrNew
  rw [findByUserId_ok]
  cases hlook : usersLookup uid store.users with
  | some u =>
    simp only [hlook]
    have hu : u.userId = uid := usersLookup_userId hlook
    have hd := dispatchState_char fuel fm fu now store u t uid hu
    constructor
    · cases hresp : (TextHandler.dispatchState fuel ⟨fm, fu, false⟩ now store u t).2.2 with
      | none =>
        simp only [hresp]
        rw [← hd.1, hresp]
        rfl
      | some r =>
        simp only [hresp]
        rw [← hd.1, hresp]
        rfl
    · intro hfm hfu
      have hd2 := hd.2 hfm hfu hlook
      cases hresp : (TextHandler.dispatchState fuel ⟨fm, fu, false⟩ now store u t).2.2 with
      | none =>
        simp only [hresp]
        exact hd2
      | some r =>
        simp only [hresp]
        exact hd2
  | none =>
    simp only [hlook]
    have hu : (User.new now uid).userId = uid := rfl
    constructor
    · have hd := dispatchState_char fuel fm fu now
        (User.save ⟨fm, fu, false⟩ now store (User.new now uid)).1
        (User.new now uid) t uid hu
      cases hresp : (TextHandler.dispatchState fuel ⟨fm, fu, false⟩ now
          (User.save ⟨fm, fu, false⟩ now store (User.new now uid)).1
          (User.new now uid) t).2.2 with
      | none =>
        simp only [hresp]
        rw [← hd.1, hresp]
        rfl
      | some r =>
        simp only [hresp]
        rw [← hd.1, hresp]
        rfl
    · intro hfm hfu
      subst hfm
      subst hfu
      have hd := dispatchState_char fuel false false now
        (User.save ⟨false, false, false⟩ now store (User.new now uid)).1
        (User.new now uid) t uid hu
      have husers : (User.save ⟨false, false, false⟩ now store
          (User.new now uid)).1.users =
          upsertUsers (User.new now uid) store.users := rfl
      have hlast : usersLookup uid
          (User.save ⟨false, false, false⟩ now store (User.new now uid)).1.users =
          some (User.new now uid) := by
        rw [husers]
        exact usersLookup_upsert_of uid _ _ hu
      have hd2 := hd.2 rfl rfl hlast
      cases hresp : (TextHandler.dispatchState fuel ⟨false, false, false⟩ now
          (User.save ⟨false, false, false⟩ now store (User.new now uid)).1
          (User.new now uid) t).2.2 with
      | none =>
        simp only [hresp]
        exact hd2
      | some r =>
        simp only [hresp]
        exact hd2

theorem handle_char (fuel : Nat) (fm fu : Bool) (now : Nat) (store : Store)
    (ev : LineEvent) (uid : String) (t : List Char)
    (huid : ev.source.userId = some uid) (hne : uid ≠ "")
    (ht : ev.message.bind LineMessage.text = some t) (htne : t ≠ []) :
    (TextHandler.handle fuel ⟨fm, fu, false⟩ now store ev).2 =
      replyList (ev.replyToken.getD "")
        (specReply fuel (lookupOrNew store uid now).state t
          ((lookupOrNew store uid now).data.name.getD [])) ∧
    (fm = false → fu = false →
      usersLookup uid (TextHandler.handle fuel ⟨fm, fu, false⟩ now store ev).1.users =
        some (specPostUser (lookupOrNew store uid now) t now)) := by
  have hguard : ¬(uid = "" ∨ t = []) := fun h => h.elim hne htne
  unfold TextHandler.handle
  rw [ht, huid]
  simp only [Option.getD_some]
  rw [if_neg hguard]
  have hpc := processUser_char fuel fm fu now
    (Message.save ⟨fm, fu, false⟩ now
      (Logger.log now store ("TextHandler handling message: ".data ++ t))
      uid "text" t).1 uid t (ev.replyToken.getD "")
  have husers : (Message.save ⟨fm, fu, false⟩ now
      (Logger.log now store ("TextHandler handling message: ".data ++ t))
      uid "text" t).1.users = store.users := by
    rw [message_save_users]
    rfl
  have hlkp : lookupOrNew (Message.save ⟨fm, fu, false⟩ now
      (Logger.log now store ("TextHandler handling message: ".data ++ t))
      uid "text" t).1 uid now = lookupOrNew store uid now := by
    unfold lookupOrNew
    rw [husers]
  rw [hlkp] at hpc
  exact hpc

/-! ### Claim C1 -/

theorem specPostUser_state (u : User) (t : List Char) (now : Nat) :
    (specPostUser u t now).state = specNextState u.state t := by
  unfold specPostUser specNextState
  by_cases h1 : u.state = StatusConstants.INITIAL
  · simp only [if_pos h1]
    by_cases hreg : t = registerKeyword <;> simp [hreg, h1]
  · simp only [if_neg h1]
    by_cases h2 : u.state = StatusConstants.WAITING_NAME
    · simp only [if_pos h2]
      by_cases hshort : (jsTrim t).length < 2 <;> simp [hshort, h2]
    · simp only [if_neg h2]
      by_cases h3 : u.state = StatusConstants.WAITING_AGE
      · simp only [if_pos h3]
        cases hp : jsParseInt t with
        | none => simp [h3]
        | some age => by_cases hr : age < 1 ∨ 120 < age <;> simp [hr, h3]
      · simp only [if_neg h3]

theorem specPostUser_name (u : User) (t : List Char) (now : Nat)
    (h : u.state = StatusConstants.WAITING_NAME) (hs : ¬(jsTrim t).length < 2) :
    (specPostUser u t now).data.name = some t := by
  unfold specPostUser
  rw [h]
  rw [if_neg (by decide), if_pos rfl, if_neg hs]

theorem specPostUser_age (u : User) (t : List Char) (now : Nat) (a : Int)
    (h : u.state = StatusConstants.WAITING_AGE) (hp : jsParseInt t = some a)
    (h1 : 1 ≤ a) (h2 : a ≤ 120) :
    (specPostUser u t now).data.age = some a := by
  unfold specPostUser
  rw [h]
  rw [if_neg (by decide), if_neg (by decide), if_pos rfl]
  simp only [hp]
  rw [if_neg (show ¬(a < 1 ∨ 120 < a) by omega)]

theorem specNextState_registered (t : List Char) :
    specNextState StatusConstants.REGISTERED t = StatusConstants.REGISTERED := by
  unfold specNextState
  rw [if_neg (by decide), if_neg (by decide), if_neg (by decide)]

/-- The conclusion of claim C1, for one inbound text event: the stored
state advances exactly as the section 4.2 table prescribes for the
handled user's current state; exactly the table's reply (through the
formatter, for the templated rows) is sent with the event's reply token;
a missing user row means the handler works on a fresh INITIAL user; the
accepting WAITING_NAME / WAITING_AGE rows store the name / age
attribute; and REGISTERED always stays REGISTERED, so re-running any
input from REGISTERED never changes the state (idempotence). -/
def C1Statement (fuel now : Nat) (store : Store) (ev : LineEvent) (uid : String)
    (t : List Char) : Prop :=
  (userStateIn (TextHandler.handle fuel okEnv now store ev).1 uid =
      some (specNextState (lookupOrNew store uid now).state t)) ∧
  ((TextHandler.handle fuel okEnv now store ev).2 =
    replyList (ev.replyToken.getD "")
      (specReply fuel (lookupOrNew store uid now).state t
        ((lookupOrNew store uid now).data.name.getD []))) ∧
  (usersLookup uid store.users = none →
    lookupOrNew store uid now = User.new now uid ∧
    (User.new now uid).state = StatusConstants.INITIAL) ∧
  ((lookupOrNew store uid now).state = StatusConstants.WAITING_NAME →
    ¬(jsTrim t).length < 2 →
    (usersLookup uid (TextHandler.handle fuel okEnv now store ev).1.users).map
        (fun u => u.data.name) = some (some t)) ∧
  (∀ a : Int, (lookupOrNew store uid now).state = StatusConstants.WAITING_AGE →
    jsParseInt t = some a → 1 ≤ a → a ≤ 120 →
    (usersLookup uid (TextHandler.handle fuel okEnv now store ev).1.users).map
        (fun u => u.data.age) = some (some a)) ∧
  ((lookupOrNew store uid now).state = StatusConstants.REGISTERED →
    userStateIn (TextHandler.handle fuel okEnv now store ev).1 uid =
      some StatusConstants.REGISTERED)

/-- Claim C1: the conversation state machine in `TextHandler` implements
the section 4.2 transition table totally — for every existing user (and
for a fresh INITIAL user created when none exists) and every inbound
text, the current state and the input determine exactly one next stored
state and one reply, with the name and age attributes stored by the
accepting rows and REGISTERED a fixed point (idempotent). -/
theorem textHandler_transition_table (fuel now : Nat) (store : Store)
    (ev : LineEvent) (uid : String) (t : List Char)
    (huid : ev.source.userId = some uid) (hne : uid ≠ "")
    (ht : ev.message.bind LineMessage.text = some t) (htne : t ≠ []) :
    C1Statement fuel now store ev uid t := by
  have hc := handle_char fuel false false now store ev uid t huid hne ht htne
  have hstores := hc.2 rfl rfl
  unfold C1Statement
  refine ⟨?_, ?_, ?_, ?_, ?_, ?_⟩
  · unfold userStateIn
    rw [show okEnv = ⟨false, false, false⟩ from rfl, hstores,
      Option.map_some']
    rw [specPostUser_state]
  · rw [show okEnv = ⟨false, false, false⟩ from rfl]
    exact hc.1
  · intro hnone
    unfold lookupOrNew
    rw [hnone]
    exact ⟨rfl, rfl⟩
  · intro hstate hlong
    rw [show okEnv = ⟨false, false, false⟩ from rfl, hstores,
      Option.map_some', specPostUser_name _ _ _ hstate hlong]
  · intro a hstate hp h1 h2
    rw [show okEnv = ⟨false, false, false⟩ from rfl, hstores,
      Option.map_some', specPostUser_age _ _ _ _ hstate hp h1 h2]
  · intro hstate
    unfold userStateIn
    rw [show okEnv = ⟨false, false, false⟩ from rfl, hstores,
      Option.map_some', specPostUser_state, hstate, specNextState_registered]

/-- A store holding one REGISTERED user `U1` with stored name `Al`. -/
def c1Store : Store :=
  ⟨[⟨"U1", none, StatusConstants.REGISTERED, ⟨some ['A', 'l'], none⟩, 0, none⟩], [], []⟩

/-- A text-message event from `U1` with text `hi`. -/
def c1Event : LineEvent :=
  ⟨.message, some "tok", ⟨.user, some "U1"⟩, 0, some ⟨"m1", .text, some "hi".data⟩, none⟩

/-- Witness for C1 at a concrete event and store. -/
theorem textHandler_transition_table_witness :
    (c1Event.source.userId = some "U1" ∧ "U1" ≠ "" ∧
      c1Event.message.bind LineMessage.text = some "hi".data ∧
      "hi".data ≠ []) ∧
    C1Statement 8 0 c1Store c1Event "U1" "hi".data :=
  ⟨⟨rfl, by decide, rfl, by decide⟩,
    textHandler_transition_table 8 0 c1Store c1Event "U1" "hi".data rfl (by decide)
      rfl (by decide)⟩

/-! ### Claim C4 -/

/-- A help-keyword text event from `U1`. -/
def c4Event : LineEvent :=
  ⟨.message, some "tok", ⟨.user, some "U1"⟩, 0,
    some ⟨"m1", .text, some "ヘルプ".data⟩, none⟩

/-- Counterexample to claim C4: with the store's message write raising,
`TextHandler.handle` still completes its normal flow — the message row is
not persisted (the error was caught inside `Message.save`, which returned
`false`, a result the handler discards), the state machine still runs and
the normal help reply is sent; no error is propagated to the dispatcher
and the generic error reply is not used. -/
theorem message_write_failure_not_fatal :
    (TextHandler.handle 8 ⟨true, false, false⟩ 0 c1Store c4Event).2 =
      [Send.reply "tok" MessageConstants.HELP.data] ∧
    (TextHandler.handle 8 ⟨true, false, false⟩ 0 c1Store c4Event).1.messages = [] ∧
    (TextHandler.handle 8 ⟨true, false, false⟩ 0 c1Store c4Event).2 ≠
      [Send.reply "tok" MessageConstants.ERROR.data] := by
  refine ⟨by decide, by decide, by decide⟩

/-- Claim C4 as amended: a persistence failure on a user or message write
is caught inside `User.save` / `Message.save`, which log it and return
`false`; `TextHandler` discards those booleans and continues its normal
flow, so the reply is identical to the no-failure run and no error ever
reaches the dispatcher from a failed write.  (The generic error reply of
the handler's `catch` corresponds to exceptions raised directly in the
handler body, which the store layer never produces.) -/
theorem persistence_failures_swallowed :
    (∀ (fuel : Nat) (fm fu : Bool) (now : Nat) (store : Store) (ev : LineEvent)
        (uid : String) (t : List Char),
      ev.source.userId = some uid → uid ≠ "" →
      ev.message.bind LineMessage.text = some t → t ≠ [] →
      (TextHandler.handle fuel ⟨fm, fu, false⟩ now store ev).2 =
        (TextHandler.handle fuel okEnv now store ev).2) ∧
    (∀ (env : FailEnv) (now : Nat) (store : Store) (u : User),
      env.failUserWrite = true →
      (User.save env now store u).2 = false ∧
      (User.save env now store u).1.users = store.users) ∧
    (∀ (env : FailEnv) (now : Nat) (store : Store) (uid ty : String) (c : List Char),
      env.failMessageWrite = true →
      (Message.save env now store uid ty c).2 = false ∧
      (Message.save env now store uid ty c).1.messages = store.messages) := by
  refine ⟨?_, ?_, ?_⟩
  · intro fuel fm fu now store ev uid t huid hne ht htne
    rw [(handle_char fuel fm fu now store ev uid t huid hne ht htne).1,
      show okEnv = ⟨false, false, false⟩ from rfl,
      (handle_char fuel false false now store ev uid t huid hne ht htne).1]
  · intro env now store u h
    unfold User.save SpreadsheetService.saveUserData
    rw [h]
    exact ⟨rfl, rfl⟩
  · intro env now store uid ty c h
    unfold Message.save SpreadsheetService.saveMessageData
    rw [h]
    exact ⟨rfl, rfl⟩

/-- Witness for the amended C4: with both writes failing the reply equals
the no-failure reply. -/
theorem persistence_failures_swallowed_witness :
    (c4Event.source.userId = some "U1" ∧ "U1" ≠ "" ∧
      c4Event.message.bind LineMessage.text = some "ヘルプ".data ∧
      "ヘルプ".data ≠ []) ∧
    (TextHandler.handle 8 ⟨true, true, false⟩ 0 c1Store c4Event).2 =
      (TextHandler.handle 8 okEnv 0 c1Store c4Event).2 :=
  ⟨⟨rfl, by decide, rfl, by decide⟩,
    persistence_failures_swallowed.1 8 true true 0 c1Store c4Event "U1"
      "ヘルプ".data rfl (by decide) rfl (by decide)⟩

/-! ### Claim C10 -/

/-- A text-message event whose source carries no user id. -/
def c10Event : LineEvent :=
  ⟨.message, some "tok", ⟨.user, none⟩, 0, some ⟨"m1", .text, some "hi".data⟩, none⟩

/-- Counterexample to claim C10: on a text event with no user id the
handler persists no message, touches no user and sends no reply — but the
store is not left entirely unchanged: the entry logging of
`TextHandler.handle` has already appended one row to the Logs table
before the guard returns. -/
theorem handle_guard_still_logs :
    TextHandler.handle 8 okEnv 0 c1Store c10Event =
      ({ c1Store with logs := c1Store.logs ++
          [⟨0, "INFO", "TextHandler handling message: ".data ++ "hi".data⟩] }, []) ∧
    (TextHandler.handle 8 okEnv 0 c1Store c10Event).1 ≠ c1Store := by
  refine ⟨by decide, by decide⟩

/-- Claim C10 as amended: on an inbound text-message event whose source
carries no user id, or whose text is absent or empty, `TextHandler.handle`
returns right after the guard: no Message row is appended, no User row is
created or updated, no reply is sent — the only store change is the one
Logs row appended by the handler's entry logging. -/
theorem handle_empty_input_frame :
    ∀ (fuel : Nat) (env : FailEnv) (now : Nat) (store : Store) (ev : LineEvent),
      ev.type = .message →
      ev.message.map LineMessage.type = some .text →
      (ev.source.userId.getD "" = "" ∨
        (ev.message.bind LineMessage.text).getD [] = []) →
      (TextHandler.handle fuel env now store ev).1.users = store.users ∧
      (TextHandler.handle fuel env now store ev).1.messages = store.messages ∧
      (TextHandler.handle fuel env now store ev).2 = [] ∧
      (TextHandler.handle fuel env now store ev).1.logs = store.logs ++
        [⟨now, "INFO", "TextHandler handling message: ".data ++
          (match ev.message.bind LineMessage.text with
            | some t => t
            | none => "undefined".data)⟩] := by
  intro fuel env now store ev _ _ hguard
  unfold TextHandler.handle Logger.log SpreadsheetService.saveLog
  rw [if_pos hguard]
  exact ⟨rfl, rfl, rfl, rfl⟩

/-- Witness for the amended C10 at the concrete no-user-id event. -/
theorem handle_empty_input_frame_witness :
    (c10Event.type = .message ∧
      c10Event.message.map LineMessage.type = some .text ∧
      (c10Event.source.userId.getD "" = "" ∨
        (c10Event.message.bind LineMessage.text).getD [] = [])) ∧
    ((TextHandler.handle 8 okEnv 0 c1Store c10Event).1.users = c1Store.users ∧
      (TextHandler.handle 8 okEnv 0 c1Store c10Event).1.messages = c1Store.messages ∧
      (TextHandler.handle 8 okEnv 0 c1Store c10Event).2 = [] ∧
      (TextHandler.handle 8 okEnv 0 c1Store c10Event).1.logs = c1Store.logs ++
        [⟨0, "INFO", "TextHandler handling message: ".data ++
          (match c10Event.message.bind LineMessage.text with
            | some t => t
            | none => "undefined".data)⟩]) :=
  ⟨⟨rfl, rfl, by decide⟩,
    handle_empty_input_frame 8 okEnv 0 c1Store c10Event rfl rfl (by decide)⟩
